import Mathlib

/-!
A shallow embedding of `DHTSetup::setup` from `src/DHTSetup.cc` of aria2,
together with proofs of the behavioural properties of its specification.

The orchestrator `setup(engine, family)` activates the DHT stack for one
address family (IPv4 or IPv6).  The embedding models the process-wide state
it reads and mutates (`DHTRegistry` per-family data and flags, the shared
`BtRegistry` UDP port and UDP tracker-client slot) as an explicit record,
and the external collaborators that are not part of this translation unit
(the routing-table deserializer and the UDP transport bind) as oracle fields
of a `SetupEnv` record, following the collaborator contracts of the spec.
Exceptions thrown inside the big `try` block of `setup` are modelled with
`Except`, the thrown value carrying the global state at the throw point, so
that the `catch` handler's rollback acts on exactly the mutations performed
so far.
-/

namespace Aria2

/-- Address-family constant `AF_INET` (IPv4), value as on Linux. -/
def AF_INET : Nat := 2

/-- Address-family constant `AF_INET6` (IPv6), value as on Linux. -/
def AF_INET6 : Nat := 10

/-- Modelled from the spec: a DHT node record (the Local Identity or a peer
record) as consumed by this core: an opaque node identifier plus an advertised
port.  `DHTNode` itself is an external collaborator of `DHTSetup.cc`. -/
structure DHTNode where
  nid : Nat
  port : Nat
deriving DecidableEq, Repr

/-- One schedulable unit of work: the `Command` objects that `setup` pushes
into the returned vector, plus the forced `DHTBucketRefreshTask` that it puts
on the family's internal task queue (line 212-217 of `DHTSetup.cc`). -/
inductive Command where
  | entryPointNameResolve
  | interaction
  | tokenUpdate
  | bucketRefreshCheck
  | peerAnnounceCheck
  | autoSave
  | forcedBucketRefresh
deriving DecidableEq, Repr

/-- Log events emitted by `setup`: the recoverable deserialization error
(lines 103-108), the informational no-entry-point message (line 241), and the
fatal error logged by the catch handler (lines 289-292). -/
inductive LogEvent where
  | loadError
  | noEntryPoint
  | initError
deriving DecidableEq, Repr

/-- Modelled from the spec: the per-family registry slot (`DHTRegistry` data),
reduced to its observable content: the registered Local Identity, the node
identifiers held by the registered Routing Table, and the tasks enqueued into
the registered Task Queue. -/
structure FamilyData where
  localNode : DHTNode
  routingNodes : List Nat
  queuedTasks : List Command
deriving DecidableEq, Repr

/-- Modelled from the spec: the process-wide `DHTRegistry`: an activation flag
and a data slot per family.  `none` in a data slot is the absent / cleared
state (`DHTRegistry::clearData`). -/
structure DHTRegistryState where
  inited : Bool
  inited6 : Bool
  data : Option FamilyData
  data6 : Option FamilyData
deriving DecidableEq, Repr

/-- Modelled from the spec: the slice of the cross-cutting `BtRegistry` that
`setup` touches: the shared negotiated UDP port and the registered
UDP tracker-client handle (identified by a number). -/
structure BtRegistryState where
  udpPort : Nat
  udpTrackerClient : Option Nat
deriving DecidableEq, Repr

/-- The process-wide state read and mutated by `setup`.  The counter
`trackerClientsMade` records how many `UDPTrackerClient` objects have been
constructed so far (line 183 constructs one unconditionally); a constructed
handle is identified by the value of the counter at its construction. -/
structure GlobalState where
  dht : DHTRegistryState
  bt : BtRegistryState
  trackerClientsMade : Nat
deriving DecidableEq, Repr

/-- The per-call inputs of `setup` that come from outside this translation
unit: the outcome of the routing-table deserialization (`none` models a
`RecoverableException` thrown by `deserialize`), the identifier a freshly
generated `DHTNode` would get, the configured candidate listen ports
(`PREF_DHT_LISTEN_PORT`, parsed and normalized), an oracle telling which ports
the transport can bind, the configured entry-point host, and two oracles
injecting a `RecoverableException` during service construction/wiring
(between the bind and the registry population) or during the task
constructions after the registry population. -/
structure SetupEnv where
  loadResult : Option (DHTNode × List DHTNode)
  freshId : Nat
  candidatePorts : List Nat
  bindOk : Nat → Bool
  entryPointHost : String
  constructionFails : Bool
  postRegFails : Bool

/-- Modelled from the spec: the Local Identity recovered by the State Loader,
if deserialization succeeded (`deserializer.getLocalNode()`, line 102). -/
def loadLocalNode (env : SetupEnv) : Option DHTNode :=
  env.loadResult.map Prod.fst

/-- Modelled from the spec: the peer records recovered by the State Loader
(`deserializer.getNodes()`, line 208); a failed load never yields a partial
result, so it recovers no peers. -/
def loadNodes (env : SetupEnv) : List DHTNode :=
  match env.loadResult with
  | some r => r.2
  | none => []

/-- The log produced by the inner try/catch around `deserialize`
(lines 100-108): a failed load is logged and recovered from. -/
def loadLogs (env : SetupEnv) : List LogEvent :=
  match env.loadResult with
  | some _ => []
  | none => [LogEvent.loadError]

/-- The Local Identity after the load step: the recovered one, or a freshly
generated `DHTNode` when the load failed (`if(!localNode)` at line 109). -/
def baseNode (env : SetupEnv) : DHTNode :=
  (loadLocalNode env).getD { nid := env.freshId, port := 0 }

/-- Modelled from the spec: `DHTConnectionImpl::bind(port, addr, sgl)` with a
candidate port list — the transport tries the candidates strictly in order
and stops at the first success, reporting the port actually bound. -/
def bindWithCandidates (env : SetupEnv) : Option Nat :=
  env.candidatePorts.find? env.bindOk

/-- Modelled from the spec: `DHTConnectionImpl::bind(port, addr)` on one fixed
port — success binds exactly that port. -/
def bindFixed (env : SetupEnv) (p : Nat) : Option Nat :=
  if env.bindOk p then some p else none

/-- The port-selection branch of `setup` (lines 125-132): a nonzero shared
UDP port is re-bound exactly; a zero value triggers the candidate search. -/
def bindResult (env : SetupEnv) (port0 : Nat) : Option Nat :=
  if port0 = 0 then bindWithCandidates env else bindFixed env port0

/-- The reject-immediately guard of `setup` (lines 87-91): the family is not
a recognized value, or the family's stack is already active. -/
def rejected (s : GlobalState) (family : Nat) : Prop :=
  (family ≠ AF_INET ∧ family ≠ AF_INET6) ∨
  (family = AF_INET ∧ s.dht.inited = true) ∨
  (family = AF_INET6 ∧ s.dht.inited6 = true)

instance instDecRejected (s : GlobalState) (family : Nat) :
    Decidable (rejected s family) := by
  unfold rejected
  exact inferInstance

/-- Mutation of the registered family data slot in place: the registered
routing table and task queue are shared with the local variables of `setup`,
so mutations after the registry population (lines 207-217) are visible in
the registry. -/
def updateData (s : GlobalState) (family : Nat) (f : FamilyData → FamilyData) :
    GlobalState :=
  if family = AF_INET then
    { s with dht := { s.dht with data := s.dht.data.map f } }
  else
    { s with dht := { s.dht with data6 := s.dht.data6.map f } }

/-- The body of the big `try` block of `DHTSetup::setup` (lines 92-288).
An `Except.error` is a `RecoverableException` reaching the catch handler;
it carries the global state at the throw point together with the log so far.
On success the final state, the returned command vector and the log are
produced.  The steps, in source order: load (recoverable, lines 100-111),
bind (lines 113-137, throwing `DL_ABORT_EX` on failure), service
construction and wiring (lines 140-180, failure injected by
`constructionFails`), unconditional `UDPTrackerClient` construction
(line 183), registry population (lines 185-206), post-registration task
constructions (failure injected by `postRegFails`), routing-table seeding
and forced refresh (lines 207-217), entry-point command (lines 219-242),
the five fixed commands (lines 243-279), activation flag (lines 280-284),
port publication (lines 285-288). -/
def setupBody (env : SetupEnv) (s : GlobalState) (family : Nat) :
    Except (GlobalState × List LogEvent)
      (GlobalState × List Command × List LogEvent) :=
  let logs0 := loadLogs env
  let desnodes := loadNodes env
  match bindResult env s.bt.udpPort with
  | none => Except.error (s, logs0)
  | some port =>
    let localNode : DHTNode := { baseNode env with port := port }
    if env.constructionFails then Except.error (s, logs0)
    else
      let s1 : GlobalState :=
        { s with trackerClientsMade := s.trackerClientsMade + 1 }
      let fd : FamilyData :=
        { localNode := localNode
          routingNodes := [localNode.nid]
          queuedTasks := [] }
      let s2 : GlobalState :=
        if family = AF_INET then
          { s1 with
            dht := { s1.dht with data := some fd }
            bt := { s1.bt with udpTrackerClient := some s.trackerClientsMade } }
        else
          { s1 with dht := { s1.dht with data6 := some fd } }
      if env.postRegFails then Except.error (s2, logs0)
      else
        let s3 := updateData s2 family
          (fun d => { d with
            routingNodes := d.routingNodes ++ desnodes.map DHTNode.nid })
        let s4 :=
          if desnodes.isEmpty then s3
          else updateData s3 family
            (fun d => { d with
              queuedTasks := d.queuedTasks ++ [Command.forcedBucketRefresh] })
        let entryCmds : List Command :=
          if env.entryPointHost.isEmpty then []
          else [Command.entryPointNameResolve]
        let logs1 :=
          if env.entryPointHost.isEmpty then logs0 ++ [LogEvent.noEntryPoint]
          else logs0
        let cmds := entryCmds ++
          [Command.interaction, Command.tokenUpdate,
           Command.bucketRefreshCheck, Command.peerAnnounceCheck,
           Command.autoSave]
        let s5 :=
          if family = AF_INET then
            { s4 with dht := { s4.dht with inited := true } }
          else
            { s4 with dht := { s4.dht with inited6 := true } }
        let s6 :=
          if s5.bt.udpPort = 0 then
            { s5 with bt := { s5.bt with udpPort := port } }
          else s5
        Except.ok (s6, cmds, logs1)

/-- `DHTSetup::setup` (lines 83-303): guard, try-body, and the catch handler
(lines 289-301) that logs the failure, clears the returned command vector,
clears the family's registry data slot, and for IPv4 also resets the
registered UDP tracker client. -/
def setup (env : SetupEnv) (s : GlobalState) (family : Nat) :
    GlobalState × List Command × List LogEvent :=
  if rejected s family then (s, [], [])
  else
    match setupBody env s family with
    | Except.ok r => r
    | Except.error (s', logs) =>
      let s'' :=
        if family = AF_INET then
          { s' with
            dht := { s'.dht with data := none }
            bt := { s'.bt with udpTrackerClient := none } }
        else
          { s' with dht := { s'.dht with data6 := none } }
      (s'', [], logs ++ [LogEvent.initError])

/-- The registry data slot of a family. -/
def familyData (s : GlobalState) (family : Nat) : Option FamilyData :=
  if family = AF_INET then s.dht.data else s.dht.data6

/-- A family's observable process-wide state is that of a never-activated
family: flag down, data slot absent, and for IPv4 no registered auxiliary
UDP tracker client. -/
def familyAbsent (s : GlobalState) (family : Nat) : Prop :=
  if family = AF_INET then
    s.dht.inited = false ∧ s.dht.data = none ∧ s.bt.udpTrackerClient = none
  else
    s.dht.inited6 = false ∧ s.dht.data6 = none

/-! ## Characterization lemmas -/

/-- A rejected call (invalid family, or family already active) is a no-op. -/
theorem setup_eq_of_rejected (env : SetupEnv) (s : GlobalState) (family : Nat)
    (h : rejected s family) : setup env s family = (s, [], []) := by
  rw [setup, if_pos h]

/-- Full characterization of a successful IPv4 activation. -/
theorem setup_ok_v4 (env : SetupEnv) (s : GlobalState) (p : Nat)
    (hrej : ¬ rejected s AF_INET)
    (hbind : bindResult env s.bt.udpPort = some p)
    (hc : env.constructionFails = false)
    (hpr : env.postRegFails = false) :
    setup env s AF_INET =
      ({ dht :=
           { inited := true
             inited6 := s.dht.inited6
             data := some
               { localNode := { nid := (baseNode env).nid, port := p }
                 routingNodes :=
                   (baseNode env).nid :: (loadNodes env).map DHTNode.nid
                 queuedTasks :=
                   if (loadNodes env).isEmpty then []
                   else [Command.forcedBucketRefresh] }
             data6 := s.dht.data6 }
         bt :=
           { udpPort := if s.bt.udpPort = 0 then p else s.bt.udpPort
             udpTrackerClient := some s.trackerClientsMade }
         trackerClientsMade := s.trackerClientsMade + 1 },
       (if env.entryPointHost.isEmpty then []
        else [Command.entryPointNameResolve]) ++
         [Command.interaction, Command.tokenUpdate, Command.bucketRefreshCheck,
          Command.peerAnnounceCheck, Command.autoSave],
       loadLogs env ++
         (if env.entryPointHost.isEmpty then [LogEvent.noEntryPoint]
          else [])) := by
  simp only [setup, if_neg hrej, setupBody]
  rw [hbind]
  by_cases h0 : s.bt.udpPort = 0 <;>
  by_cases he : (loadNodes env).isEmpty <;>
  by_cases hh : env.entryPointHost.isEmpty <;>
    simp [hc, hpr, updateData, h0, he, hh]

/-- Full characterization of a successful IPv6 activation. -/
theorem setup_ok_v6 (env : SetupEnv) (s : GlobalState) (p : Nat)
    (hrej : ¬ rejected s AF_INET6)
    (hbind : bindResult env s.bt.udpPort = some p)
    (hc : env.constructionFails = false)
    (hpr : env.postRegFails = false) :
    setup env s AF_INET6 =
      ({ dht :=
           { inited := s.dht.inited
             inited6 := true
             data := s.dht.data
             data6 := some
               { localNode := { nid := (baseNode env).nid, port := p }
                 routingNodes :=
                   (baseNode env).nid :: (loadNodes env).map DHTNode.nid
                 queuedTasks :=
                   if (loadNodes env).isEmpty then []
                   else [Command.forcedBucketRefresh] } }
         bt :=
           { udpPort := if s.bt.udpPort = 0 then p else s.bt.udpPort
             udpTrackerClient := s.bt.udpTrackerClient }
         trackerClientsMade := s.trackerClientsMade + 1 },
       (if env.entryPointHost.isEmpty then []
        else [Command.entryPointNameResolve]) ++
         [Command.interaction, Command.tokenUpdate, Command.bucketRefreshCheck,
          Command.peerAnnounceCheck, Command.autoSave],
       loadLogs env ++
         (if env.entryPointHost.isEmpty then [LogEvent.noEntryPoint]
          else [])) := by
  simp only [setup, if_neg hrej, setupBody]
  rw [hbind]
  by_cases h0 : s.bt.udpPort = 0 <;>
  by_cases he : (loadNodes env).isEmpty <;>
  by_cases hh : env.entryPointHost.isEmpty <;>
    simp [hc, hpr, updateData, h0, he, hh, AF_INET, AF_INET6]

/-- Any fatal failure after the load step of an IPv4 activation returns an
empty command vector, clears the IPv4 registry slot and the tracker-client
slot, and leaves the flags, the IPv6 slot and the shared port unchanged. -/
theorem setup_err_v4 (env : SetupEnv) (s : GlobalState)
    (hrej : ¬ rejected s AF_INET)
    (hfail : bindResult env s.bt.udpPort = none ∨
      env.constructionFails = true ∨ env.postRegFails = true) :
    (setup env s AF_INET).2.1 = [] ∧
    (setup env s AF_INET).1.dht.data = none ∧
    (setup env s AF_INET).1.bt.udpTrackerClient = none ∧
    (setup env s AF_INET).1.dht.inited = s.dht.inited ∧
    (setup env s AF_INET).1.dht.inited6 = s.dht.inited6 ∧
    (setup env s AF_INET).1.dht.data6 = s.dht.data6 ∧
    (setup env s AF_INET).1.bt.udpPort = s.bt.udpPort ∧
    (setup env s AF_INET).2.2 = loadLogs env ++ [LogEvent.initError] := by
  simp only [setup, if_neg hrej, setupBody]
  cases hb : bindResult env s.bt.udpPort with
  | none => simp [hb]
  | some p =>
    by_cases hc : env.constructionFails = true
    · simp [hb, hc]
    · by_cases hpr : env.postRegFails = true
      · simp [hb, hc, hpr]
      · rcases hfail with h | h | h
        · rw [hb] at h; exact Option.noConfusion h
        · exact absurd h hc
        · exact absurd h hpr

/-- Any fatal failure after the load step of an IPv6 activation returns an
empty command vector, clears the IPv6 registry slot, and leaves the flags,
the whole IPv4 state, the tracker-client slot and the shared port
unchanged. -/
theorem setup_err_v6 (env : SetupEnv) (s : GlobalState)
    (hrej : ¬ rejected s AF_INET6)
    (hfail : bindResult env s.bt.udpPort = none ∨
      env.constructionFails = true ∨ env.postRegFails = true) :
    (setup env s AF_INET6).2.1 = [] ∧
    (setup env s AF_INET6).1.dht.data6 = none ∧
    (setup env s AF_INET6).1.dht.inited = s.dht.inited ∧
    (setup env s AF_INET6).1.dht.inited6 = s.dht.inited6 ∧
    (setup env s AF_INET6).1.dht.data = s.dht.data ∧
    (setup env s AF_INET6).1.bt.udpTrackerClient = s.bt.udpTrackerClient ∧
    (setup env s AF_INET6).1.bt.udpPort = s.bt.udpPort ∧
    (setup env s AF_INET6).2.2 = loadLogs env ++ [LogEvent.initError] := by
  simp only [setup, if_neg hrej, setupBody]
  cases hb : bindResult env s.bt.udpPort with
  | none => simp [hb, AF_INET, AF_INET6]
  | some p =>
    by_cases hc : env.constructionFails = true
    · simp [hb, hc, AF_INET, AF_INET6]
    · by_cases hpr : env.postRegFails = true
      · simp [hb, hc, hpr, AF_INET, AF_INET6]
      · rcases hfail with h | h | h
        · rw [hb] at h; exact Option.noConfusion h
        · exact absurd h hc
        · exact absurd h hpr

/-- Inversion: a call that returned a nonempty command vector passed the
guard for a recognized family, was injected with no construction failure,
and bound a port. -/
theorem setup_ok_inv (env : SetupEnv) (s : GlobalState) (family : Nat)
    (hok : (setup env s family).2.1 ≠ []) :
    ¬ rejected s family ∧ (family = AF_INET ∨ family = AF_INET6) ∧
    env.constructionFails = false ∧ env.postRegFails = false ∧
    ∃ p, bindResult env s.bt.udpPort = some p := by
  have hrej : ¬ rejected s family := by
    intro h
    exact hok (by rw [setup_eq_of_rejected env s family h])
  have hfam : family = AF_INET ∨ family = AF_INET6 := by
    by_contra h
    push_neg at h
    exact hrej (Or.inl ⟨h.1, h.2⟩)
  have hnofail : ¬ (bindResult env s.bt.udpPort = none ∨
      env.constructionFails = true ∨ env.postRegFails = true) := by
    intro h
    rcases hfam with hf | hf
    · subst hf
      exact hok (setup_err_v4 env s hrej h).1
    · subst hf
      exact hok (setup_err_v6 env s hrej h).1
  push_neg at hnofail
  obtain ⟨hb, hc, hpr⟩ := hnofail
  refine ⟨hrej, hfam, ?_, ?_, ?_⟩
  · exact Bool.eq_false_iff.mpr hc
  · exact Bool.eq_false_iff.mpr hpr
  · cases hbr : bindResult env s.bt.udpPort with
    | none => exact absurd hbr hb
    | some p => exact ⟨p, rfl⟩

/-- A recognized family that passed the guard is IPv4 or IPv6. -/
theorem family_of_not_rejected (s : GlobalState) (family : Nat)
    (hrej : ¬ rejected s family) : family = AF_INET ∨ family = AF_INET6 := by
  by_contra h
  push_neg at h
  exact hrej (Or.inl ⟨h.1, h.2⟩)

/-! ## Concrete fixtures for the witnesses -/

/-- A pristine process state: nothing active, no negotiated port. -/
def st0 : GlobalState :=
  { dht := { inited := false, inited6 := false, data := none, data6 := none }
    bt := { udpPort := 0, udpTrackerClient := none }
    trackerClientsMade := 0 }

/-- A state with the IPv4 stack already active. -/
def stActive4 : GlobalState :=
  { dht := { inited := true, inited6 := false, data := none, data6 := none }
    bt := { udpPort := 6882, udpTrackerClient := none }
    trackerClientsMade := 1 }

/-- A state with a pre-negotiated shared UDP port 7777. -/
def stP : GlobalState :=
  { dht := { inited := false, inited6 := false, data := none, data6 := none }
    bt := { udpPort := 7777, udpTrackerClient := none }
    trackerClientsMade := 0 }

/-- A concrete environment: successful load with one recovered peer, three
candidate ports of which only the second can be bound, and a configured
entry point. -/
def env0 : SetupEnv :=
  { loadResult := some ({ nid := 5, port := 0 }, [{ nid := 9, port := 7001 }])
    freshId := 3
    candidatePorts := [6881, 6882, 6883]
    bindOk := fun p => p == 6882
    entryPointHost := "router.example"
    constructionFails := false
    postRegFails := false }

/-- `env0` with a transport that cannot bind any port. -/
def envBindFail : SetupEnv :=
  { env0 with bindOk := fun _ => false }

/-- `env0` with a failing snapshot load. -/
def envNoLoad : SetupEnv :=
  { env0 with loadResult := none }

/-- `env0` with a transport that can bind the pre-negotiated port 7777. -/
def envP : SetupEnv :=
  { env0 with bindOk := fun p => p == 7777 }

/-! ## The claims -/

/-- Claim C1: any failure after the snapshot-load step (bind exhaustion or an
exception while constructing/wiring services, before or after the registry
population) makes `setup` return an empty task list, log the failure, and
leave the family's registry slot absent, its activation flag down, and (for
IPv4) the auxiliary cross-registry tracker-client slot empty — the state of a
never-activated family. -/
theorem setup_fatal_rolls_back (env : SetupEnv) (s : GlobalState) (family : Nat)
    (hrej : ¬ rejected s family)
    (hfail : bindResult env s.bt.udpPort = none ∨
      env.constructionFails = true ∨ env.postRegFails = true) :
    (setup env s family).2.1 = [] ∧
    familyAbsent (setup env s family).1 family ∧
    LogEvent.initError ∈ (setup env s family).2.2 := by
  rcases family_of_not_rejected s family hrej with hf | hf <;> subst hf
  · obtain ⟨h1, h2, h3, h4, _, _, _, h8⟩ := setup_err_v4 env s hrej hfail
    have hi : s.dht.inited = false := by
      cases h : s.dht.inited with
      | false => rfl
      | true => exact absurd (Or.inr (Or.inl ⟨rfl, h⟩)) hrej
    refine ⟨h1, ?_, ?_⟩
    · rw [familyAbsent, if_pos rfl]
      exact ⟨h4.trans hi, h2, h3⟩
    · rw [h8]; simp
  · obtain ⟨h1, h2, _, h4, _, _, _, h8⟩ := setup_err_v6 env s hrej hfail
    have hi : s.dht.inited6 = false := by
      cases h : s.dht.inited6 with
      | false => rfl
      | true => exact absurd (Or.inr (Or.inr ⟨rfl, h⟩)) hrej
    refine ⟨h1, ?_, ?_⟩
    · rw [familyAbsent, if_neg (by decide : ¬ AF_INET6 = AF_INET)]
      exact ⟨h4.trans hi, h2⟩
    · rw [h8]; simp

/-- Witness for C1: a bind-exhaustion failure on a pristine IPv4 call. -/
theorem setup_fatal_rolls_back_witness :
    (setup envBindFail st0 AF_INET).2.1 = [] ∧
    familyAbsent (setup envBindFail st0 AF_INET).1 AF_INET ∧
    LogEvent.initError ∈ (setup envBindFail st0 AF_INET).2.2 :=
  setup_fatal_rolls_back envBindFail st0 AF_INET (by decide)
    (Or.inl (by decide))

/-- Claim C2: an unrecognized family value, or a family whose stack is
already active, is rejected silently: the call returns an empty list without
logging and without any state mutation, and a second consecutive call
behaves identically, leaving the registry unchanged. -/
theorem setup_invalid_or_active_noop (env env2 : SetupEnv) (s : GlobalState)
    (family : Nat) (h : rejected s family) :
    setup env s family = (s, [], []) ∧
    setup env2 (setup env s family).1 family = (s, [], []) := by
  have h1 := setup_eq_of_rejected env s family h
  refine ⟨h1, ?_⟩
  rw [h1]
  exact setup_eq_of_rejected env2 s family h

/-- Witness for C2: two consecutive IPv4 calls on an already-active IPv4
stack are both silent no-ops. -/
theorem setup_invalid_or_active_noop_witness :
    setup env0 stActive4 AF_INET = (stActive4, [], []) ∧
    setup env0 (setup env0 stActive4 AF_INET).1 AF_INET =
      (stActive4, [], []) :=
  setup_invalid_or_active_noop env0 env0 stActive4 AF_INET
    (Or.inr (Or.inl ⟨rfl, rfl⟩))

/-- Claim C3 as stated is false: on a successful call with an entry point
configured and recovered peers, the entry-point task is returned first,
before the five fixed tasks (not after them), and the forced full
bucket-refresh task is not an element of the returned list at all. -/
theorem setup_task_order_counterexample :
    (setup env0 st0 AF_INET).2.1 ≠ [] ∧
    ¬ ((setup env0 st0 AF_INET).2.1.take 5 =
        [Command.interaction, Command.tokenUpdate, Command.bucketRefreshCheck,
         Command.peerAnnounceCheck, Command.autoSave]) ∧
    Command.forcedBucketRefresh ∉ (setup env0 st0 AF_INET).2.1 ∧
    loadNodes env0 ≠ [] := by
  decide

/-- Claim C3 (amended): every successful call returns 5 or 6 task handles:
the conditional entry-point resolve task first when an entry point is
configured, followed by the five fixed tasks in the order receive/dispatch
driver, token rotation, bucket-refresh check, peer-announce expiry check,
auto-save; the forced full bucket-refresh is never part of the returned
list. -/
theorem setup_task_list_amended (env : SetupEnv) (s : GlobalState)
    (family : Nat) (hok : (setup env s family).2.1 ≠ []) :
    (setup env s family).2.1 =
      (if env.entryPointHost.isEmpty then []
       else [Command.entryPointNameResolve]) ++
      [Command.interaction, Command.tokenUpdate, Command.bucketRefreshCheck,
       Command.peerAnnounceCheck, Command.autoSave] := by
  obtain ⟨hrej, hfam, hc, hpr, p, hbr⟩ := setup_ok_inv env s family hok
  rcases hfam with hf | hf <;> subst hf
  · rw [setup_ok_v4 env s p hrej hbr hc hpr]
  · rw [setup_ok_v6 env s p hrej hbr hc hpr]

/-- Witness for the amended C3: the concrete successful IPv4 call. -/
theorem setup_task_list_amended_witness :
    (setup env0 st0 AF_INET).2.1 =
      (if env0.entryPointHost.isEmpty then []
       else [Command.entryPointNameResolve]) ++
      [Command.interaction, Command.tokenUpdate, Command.bucketRefreshCheck,
       Command.peerAnnounceCheck, Command.autoSave] :=
  setup_task_list_amended env0 st0 AF_INET (by decide)

/-- Claim C4: a nonzero pre-set shared negotiated port P is re-bound exactly:
the configured candidate port list has no influence whatsoever on the
outcome of the call, and on success the registered Local Identity advertises
exactly P. -/
theorem setup_fixed_port_reuse (env : SetupEnv) (s : GlobalState)
    (family : Nat) (P : Nat) (hP : s.bt.udpPort = P) (hP0 : P ≠ 0) :
    (∀ l, setup { env with candidatePorts := l } s family =
      setup env s family) ∧
    ((setup env s family).2.1 ≠ [] →
      ∃ d, familyData (setup env s family).1 family = some d ∧
        d.localNode.port = P) := by
  have hb : ∀ l : List Nat,
      bindResult { env with candidatePorts := l } s.bt.udpPort =
        bindResult env s.bt.udpPort := by
    intro l
    rw [bindResult, bindResult, hP, if_neg hP0, if_neg hP0]
    rfl
  constructor
  · intro l
    by_cases hrej : rejected s family
    · rw [setup_eq_of_rejected _ _ _ hrej, setup_eq_of_rejected _ _ _ hrej]
    · simp only [setup, if_neg hrej, setupBody, hb l]
      rfl
  · intro hok
    obtain ⟨hrej, hfam, hc, hpr, p, hbr⟩ := setup_ok_inv env s family hok
    have hpp : p = P := by
      rw [bindResult, hP, if_neg hP0, bindFixed] at hbr
      by_cases hh : env.bindOk P = true
      · rw [if_pos hh] at hbr
        exact (Option.some.inj hbr).symm
      · rw [if_neg hh] at hbr
        exact Option.noConfusion hbr
    subst hpp
    rcases hfam with hf | hf <;> subst hf
    · rw [setup_ok_v4 env s p hrej hbr hc hpr]
      exact ⟨_, rfl, rfl⟩
    · rw [setup_ok_v6 env s p hrej hbr hc hpr]
      exact ⟨_, rfl, rfl⟩

/-- Witness for C4: with the shared port pre-set to 7777, the candidate list
is ignored and the bound and advertised port is 7777. -/
theorem setup_fixed_port_reuse_witness :
    (∀ l, setup { envP with candidatePorts := l } stP AF_INET =
      setup envP stP AF_INET) ∧
    ((setup envP stP AF_INET).2.1 ≠ [] →
      ∃ d, familyData (setup envP stP AF_INET).1 AF_INET = some d ∧
        d.localNode.port = 7777) :=
  setup_fixed_port_reuse envP stP AF_INET 7777 rfl (by decide)

/-- Claim C5: on a successful call that found the shared negotiated-port
value zero, the shared value afterwards equals the port actually bound (the
first candidate the transport could bind); a nonzero pre-set value is left
unchanged. -/
theorem setup_port_publication (env : SetupEnv) (s : GlobalState)
    (family : Nat) (hok : (setup env s family).2.1 ≠ []) :
    (s.bt.udpPort = 0 →
      ∃ p, bindWithCandidates env = some p ∧
        (setup env s family).1.bt.udpPort = p) ∧
    (s.bt.udpPort ≠ 0 →
      (setup env s family).1.bt.udpPort = s.bt.udpPort) := by
  obtain ⟨hrej, hfam, hc, hpr, p, hbr⟩ := setup_ok_inv env s family hok
  constructor
  · intro h0
    refine ⟨p, ?_, ?_⟩
    · rw [bindResult, if_pos h0] at hbr
      exact hbr
    · rcases hfam with hf | hf <;> subst hf
      · rw [setup_ok_v4 env s p hrej hbr hc hpr]
        simp [h0]
      · rw [setup_ok_v6 env s p hrej hbr hc hpr]
        simp [h0]
  · intro h0
    rcases hfam with hf | hf <;> subst hf
    · rw [setup_ok_v4 env s p hrej hbr hc hpr]
      simp [h0]
    · rw [setup_ok_v6 env s p hrej hbr hc hpr]
      simp [h0]

/-- Witness for C5: candidate list [6881, 6882, 6883] with only 6882
bindable publishes 6882 into the zero shared port. -/
theorem setup_port_publication_witness :
    (st0.bt.udpPort = 0 →
      ∃ p, bindWithCandidates env0 = some p ∧
        (setup env0 st0 AF_INET).1.bt.udpPort = p) ∧
    (st0.bt.udpPort ≠ 0 →
      (setup env0 st0 AF_INET).1.bt.udpPort = st0.bt.udpPort) :=
  setup_port_publication env0 st0 AF_INET (by decide)

/-- Claim C6: a successful call inserts every recovered peer into the
registered Routing Table, and schedules exactly one forced full
bucket-refresh task when at least one peer was recovered and none
otherwise. -/
theorem setup_seeds_routing_table (env : SetupEnv) (s : GlobalState)
    (family : Nat) (hok : (setup env s family).2.1 ≠ []) :
    ∃ d, familyData (setup env s family).1 family = some d ∧
      (∀ node ∈ loadNodes env, node.nid ∈ d.routingNodes) ∧
      d.queuedTasks.count Command.forcedBucketRefresh =
        (if (loadNodes env).isEmpty then 0 else 1) := by
  obtain ⟨hrej, hfam, hc, hpr, p, hbr⟩ := setup_ok_inv env s family hok
  rcases hfam with hf | hf <;> subst hf
  · rw [setup_ok_v4 env s p hrej hbr hc hpr]
    refine ⟨_, rfl, ?_, ?_⟩
    · intro node hn
      exact List.mem_cons_of_mem _ (List.mem_map_of_mem DHTNode.nid hn)
    · by_cases he : (loadNodes env).isEmpty <;> simp [he]
  · rw [setup_ok_v6 env s p hrej hbr hc hpr]
    refine ⟨_, rfl, ?_, ?_⟩
    · intro node hn
      exact List.mem_cons_of_mem _ (List.mem_map_of_mem DHTNode.nid hn)
    · by_cases he : (loadNodes env).isEmpty <;> simp [he]

/-- Witness for C6: the recovered peer with identifier 9 is present and one
forced refresh is queued. -/
theorem setup_seeds_routing_table_witness :
    ∃ d, familyData (setup env0 st0 AF_INET).1 AF_INET = some d ∧
      (∀ node ∈ loadNodes env0, node.nid ∈ d.routingNodes) ∧
      d.queuedTasks.count Command.forcedBucketRefresh =
        (if (loadNodes env0).isEmpty then 0 else 1) :=
  setup_seeds_routing_table env0 st0 AF_INET (by decide)

/-- Claim C7: a failed snapshot load is logged and recovered from: with a
port bound and no construction failure injected, activation still succeeds,
with a freshly generated Local Identity and no recovered peer in the
registered Routing Table. -/
theorem setup_load_failure_recovered (env : SetupEnv) (s : GlobalState)
    (family : Nat) (p : Nat)
    (hload : env.loadResult = none)
    (hrej : ¬ rejected s family)
    (hbind : bindResult env s.bt.udpPort = some p)
    (hc : env.constructionFails = false)
    (hpr : env.postRegFails = false) :
    (setup env s family).2.1 ≠ [] ∧
    LogEvent.loadError ∈ (setup env s family).2.2 ∧
    familyData (setup env s family).1 family =
      some { localNode := { nid := env.freshId, port := p }
             routingNodes := [env.freshId]
             queuedTasks := [] } := by
  have hbn : baseNode env = { nid := env.freshId, port := 0 } := by
    rw [baseNode, loadLocalNode, hload]
    rfl
  have hln : loadNodes env = [] := by
    rw [loadNodes, hload]
  have hll : loadLogs env = [LogEvent.loadError] := by
    rw [loadLogs, hload]
  rcases family_of_not_rejected s family hrej with hf | hf <;> subst hf
  · rw [setup_ok_v4 env s p hrej hbind hc hpr]
    refine ⟨?_, ?_, ?_⟩
    · by_cases hh : env.entryPointHost.isEmpty <;> simp [hh]
    · simp [hll]
    · simp [familyData, hbn, hln]
  · rw [setup_ok_v6 env s p hrej hbind hc hpr]
    refine ⟨?_, ?_, ?_⟩
    · by_cases hh : env.entryPointHost.isEmpty <;> simp [hh]
    · simp [hll]
    · simp [familyData, hbn, hln, AF_INET, AF_INET6]

/-- Witness for C7: the concrete failing load on the pristine state still
activates IPv4 with the fresh identity 3 and no recovered peer. -/
theorem setup_load_failure_recovered_witness :
    (setup envNoLoad st0 AF_INET).2.1 ≠ [] ∧
    LogEvent.loadError ∈ (setup envNoLoad st0 AF_INET).2.2 ∧
    familyData (setup envNoLoad st0 AF_INET).1 AF_INET =
      some { localNode := { nid := envNoLoad.freshId, port := 6882 }
             routingNodes := [envNoLoad.freshId]
             queuedTasks := [] } :=
  setup_load_failure_recovered envNoLoad st0 AF_INET 6882 rfl (by decide)
    (by decide) rfl rfl

/-- Claim C8: whatever the outcome of the call, the other family's registry
state is untouched: an IPv4 call leaves the IPv6 flag and slot unchanged,
and an IPv6 call leaves the IPv4 flag, the IPv4 slot and the auxiliary
tracker-client registration unchanged. -/
theorem setup_other_family_untouched (env : SetupEnv) (s : GlobalState)
    (family : Nat) :
    (family = AF_INET →
      (setup env s family).1.dht.inited6 = s.dht.inited6 ∧
      (setup env s family).1.dht.data6 = s.dht.data6) ∧
    (family = AF_INET6 →
      (setup env s family).1.dht.inited = s.dht.inited ∧
      (setup env s family).1.dht.data = s.dht.data ∧
      (setup env s family).1.bt.udpTrackerClient = s.bt.udpTrackerClient) := by
  constructor
  · intro hf
    subst hf
    by_cases hrej : rejected s AF_INET
    · rw [setup_eq_of_rejected env s _ hrej]
      exact ⟨rfl, rfl⟩
    · by_cases hfail : bindResult env s.bt.udpPort = none ∨
        env.constructionFails = true ∨ env.postRegFails = true
      · obtain ⟨_, _, _, _, h5, h6, _, _⟩ := setup_err_v4 env s hrej hfail
        exact ⟨h5, h6⟩
      · push_neg at hfail
        obtain ⟨hb, hc, hpr⟩ := hfail
        cases hbr : bindResult env s.bt.udpPort with
        | none => exact absurd hbr hb
        | some p =>
          rw [setup_ok_v4 env s p hrej hbr (Bool.eq_false_iff.mpr hc)
            (Bool.eq_false_iff.mpr hpr)]
          exact ⟨rfl, rfl⟩
  · intro hf
    subst hf
    by_cases hrej : rejected s AF_INET6
    · rw [setup_eq_of_rejected env s _ hrej]
      exact ⟨rfl, rfl, rfl⟩
    · by_cases hfail : bindResult env s.bt.udpPort = none ∨
        env.constructionFails = true ∨ env.postRegFails = true
      · obtain ⟨_, _, h3, _, h5, h6, _, _⟩ := setup_err_v6 env s hrej hfail
        exact ⟨h3, h5, h6⟩
      · push_neg at hfail
        obtain ⟨hb, hc, hpr⟩ := hfail
        cases hbr : bindResult env s.bt.udpPort with
        | none => exact absurd hbr hb
        | some p =>
          rw [setup_ok_v6 env s p hrej hbr (Bool.eq_false_iff.mpr hc)
            (Bool.eq_false_iff.mpr hpr)]
          exact ⟨rfl, rfl, rfl⟩

/-- Witness for C8: a successful IPv6 activation on the pristine state
leaves the whole IPv4 side untouched. -/
theorem setup_other_family_untouched_witness :
    (setup env0 st0 AF_INET6).1.dht.inited = st0.dht.inited ∧
    (setup env0 st0 AF_INET6).1.dht.data = st0.dht.data ∧
    (setup env0 st0 AF_INET6).1.bt.udpTrackerClient =
      st0.bt.udpTrackerClient :=
  (setup_other_family_untouched env0 st0 AF_INET6).2 rfl

/-- Claim C9 fails as stated: a successful IPv6 call does construct a
UDP tracker-client handle (the construction at line 183 of `DHTSetup.cc` is
unconditional), even though it never registers it into the cross-cutting
registry's tracker-client slot. -/
theorem setup_tracker_construction_counterexample :
    (setup env0 st0 AF_INET6).2.1 ≠ [] ∧
    (setup env0 st0 AF_INET6).1.trackerClientsMade ≠
      st0.trackerClientsMade := by
  decide

/-- Claim C9 (amended): a successful call constructs exactly one auxiliary
UDP tracker-client handle for either family; for the IPv4 family only it is
registered into the cross-cutting registry's tracker-client slot, while an
IPv6 call leaves that slot unmodified. -/
theorem setup_tracker_registration_amended (env : SetupEnv) (s : GlobalState)
    (family : Nat) (hok : (setup env s family).2.1 ≠ []) :
    (family = AF_INET →
      (setup env s family).1.bt.udpTrackerClient =
        some s.trackerClientsMade ∧
      (setup env s family).1.trackerClientsMade =
        s.trackerClientsMade + 1) ∧
    (family = AF_INET6 →
      (setup env s family).1.bt.udpTrackerClient = s.bt.udpTrackerClient ∧
      (setup env s family).1.trackerClientsMade =
        s.trackerClientsMade + 1) := by
  obtain ⟨hrej, hfam, hc, hpr, p, hbr⟩ := setup_ok_inv env s family hok
  constructor <;> intro hf <;> subst hf
  · rw [setup_ok_v4 env s p hrej hbr hc hpr]
    exact ⟨rfl, rfl⟩
  · rw [setup_ok_v6 env s p hrej hbr hc hpr]
    exact ⟨rfl, rfl⟩

/-- Witness for the amended C9: the successful IPv6 call constructs one
handle and does not touch the cross-cutting tracker-client slot. -/
theorem setup_tracker_registration_amended_witness :
    (setup env0 st0 AF_INET6).1.bt.udpTrackerClient =
      st0.bt.udpTrackerClient ∧
    (setup env0 st0 AF_INET6).1.trackerClientsMade =
      st0.trackerClientsMade + 1 :=
  (setup_tracker_registration_amended env0 st0 AF_INET6 (by decide)).2 rfl

/-- Claim C10: on a successful call with at least one recovered peer, the
forced full bucket-refresh task goes into the family's internal Task Queue
and never into the returned list, which therefore has at most 6 elements. -/
theorem setup_forced_refresh_internal_only (env : SetupEnv) (s : GlobalState)
    (family : Nat) (hok : (setup env s family).2.1 ≠ [])
    (hpeers : loadNodes env ≠ []) :
    Command.forcedBucketRefresh ∉ (setup env s family).2.1 ∧
    (setup env s family).2.1.length ≤ 6 ∧
    ∃ d, familyData (setup env s family).1 family = some d ∧
      d.queuedTasks = [Command.forcedBucketRefresh] := by
  obtain ⟨hrej, hfam, hc, hpr, p, hbr⟩ := setup_ok_inv env s family hok
  have hne : (loadNodes env).isEmpty = false := by
    cases h : loadNodes env with
    | nil => exact absurd h hpeers
    | cons a t => rfl
  rcases hfam with hf | hf <;> subst hf
  · rw [setup_ok_v4 env s p hrej hbr hc hpr]
    refine ⟨?_, ?_, _, rfl, by simp [hne]⟩
    · by_cases hh : env.entryPointHost.isEmpty <;> simp [hh]
    · by_cases hh : env.entryPointHost.isEmpty <;> simp [hh]
  · rw [setup_ok_v6 env s p hrej hbr hc hpr]
    refine ⟨?_, ?_, _, rfl, by simp [hne]⟩
    · by_cases hh : env.entryPointHost.isEmpty <;> simp [hh]
    · by_cases hh : env.entryPointHost.isEmpty <;> simp [hh]

/-- Witness for C10: the concrete successful IPv4 call with one recovered
peer returns 6 commands, none of them the forced refresh, which sits in the
registered task queue. -/
theorem setup_forced_refresh_internal_only_witness :
    Command.forcedBucketRefresh ∉ (setup env0 st0 AF_INET).2.1 ∧
    (setup env0 st0 AF_INET).2.1.length ≤ 6 ∧
    ∃ d, familyData (setup env0 st0 AF_INET).1 AF_INET = some d ∧
      d.queuedTasks = [Command.forcedBucketRefresh] :=
  setup_forced_refresh_internal_only env0 st0 AF_INET (by decide) (by decide)

end Aria2
